import Mathlib

/-!
# auth-service: the authentication domain service

A shallow embedding of `internal/domain` (service.go, user.go, jwt_claims.go,
interfaces.go) of alexdenkk/auth-service.

* Go strings are Lean strings; `error` values are `GoError` (the message of
  `errors.New`), a nil error is `none`.
* The collaborators the service calls but does not implement (the
  `UserRepository` interface, bcrypt, golang-jwt, net/mail, uuid, the clock)
  are parameters: `UserRepository` and `Runtime` hold what each call answers
  during the execution under study.
* Every operation returns, next to its Go results, the list of collaborator
  calls it made, in order (`Call`).
* The zap logger calls are observability only and are not part of the model.
* `uuid.New` is taken to return: its panic when the random source fails is
  outside the model. The only panics modelled are those of index expressions.
-/

namespace AuthService

/-! ## Values -/

/-- A Go `error` value, identified by its message. -/
structure GoError where
  msg : String
  deriving DecidableEq, Repr

namespace errors

/-- Go `errors.New`. -/
def New (text : String) : GoError := ⟨text⟩

end errors

/-! Struct fields default to their Go zero value, so that a Lean structure
instance that leaves a field out reads as the Go composite literal does. -/

/-- A `uuid.UUID` (16 bytes), as the number it encodes; `uuid.Nil` is `0`. -/
abbrev UUID := Nat

/-- A `time.Time`, as nanoseconds since the zero instant; the zero value is `0`. -/
structure Time where
  nanos : Nat
  deriving DecidableEq, Repr

/-- The zero `time.Time`. -/
def Time.zero : Time := ⟨0⟩

/-- The type `[]byte` of `config.JwtConfig.SignKey`. -/
abbrev Bytes := List Nat

/-- user.go: `type User struct`. -/
structure User where
  ID : UUID := 0
  Email : String := ""
  Password : String := ""
  CreatedAt : Time := Time.zero
  UpdatedAt : Time := Time.zero
  deriving DecidableEq, Repr

/-- The Go zero value `User{}`. -/
def User.empty : User := {}

/-- The struct `jwt.RegisteredClaims` of golang-jwt v5 (pointer fields are options). -/
structure RegisteredClaims where
  Issuer : String := ""
  Subject : String := ""
  Audience : List String := []
  ExpiresAt : Option Nat := none
  NotBefore : Option Nat := none
  IssuedAt : Option Nat := none
  ID : String := ""
  deriving DecidableEq, Repr

/-- The zero value `jwt.RegisteredClaims{}`: no registered claim populated. -/
def RegisteredClaims.empty : RegisteredClaims := {}

/-- jwt_claims.go: `type JwtClaims struct`; `Registered` is the embedded
`jwt.RegisteredClaims`. -/
structure JwtClaims where
  Registered : RegisteredClaims := RegisteredClaims.empty
  ID : UUID := 0
  Email : String := ""
  deriving DecidableEq, Repr

/-- config.go: `type JwtConfig struct`. -/
structure JwtConfig where
  SignKey : Bytes
  deriving DecidableEq, Repr

/-- The signing methods of golang-jwt that matter here. -/
inductive SigningMethod where
  | HS256
  | HS384
  | HS512
  deriving DecidableEq, Repr

/-- What `jwt.ParseWithClaims` hands back when its error is nil: the claims it
filled in and the `Valid` flag of the token. -/
structure ParsedToken where
  Claims : JwtClaims
  Valid : Bool
  deriving DecidableEq, Repr

deriving instance DecidableEq for Except

/-! ## Collaborators -/

/-- interfaces.go: `type UserRepository interface`. -/
structure UserRepository where
  GetUserByEmail : String → Except GoError User
  GetUserByID : UUID → Except GoError User
  CreateUser : User → Option GoError

/-- The library calls of service.go and user.go. -/
structure Runtime where
  /-- Go `bcrypt.GenerateFromPassword(password, cost)`. -/
  GenerateFromPassword : String → Nat → Except GoError String
  /-- Go `bcrypt.CompareHashAndPassword(hash, password)`; `none` is a match. -/
  CompareHashAndPassword : String → String → Option GoError
  /-- Go `jwt.NewWithClaims(method, claims).SignedString(key)`. -/
  SignedString : SigningMethod → JwtClaims → Bytes → Except GoError String
  /-- Go `jwt.ParseWithClaims(token, &claims, keyFunc)`, given the key that
  `keyFunc` returns. -/
  ParseWithClaims : String → Bytes → Except GoError ParsedToken
  /-- Go `mail.ParseAddress(s)`: `none` when the address parses. -/
  ParseAddress : String → Option GoError
  /-- Go `uuid.New()`. -/
  uuidNew : UUID
  /-- Go `time.Now()`. -/
  timeNow : Time

/-- The constant `bcrypt.DefaultCost`. -/
def bcryptDefaultCost : Nat := 10

/-- A call to a collaborator, with its arguments. -/
inductive Call where
  | GetUserByEmail (email : String)
  | GetUserByID (id : UUID)
  | CreateUser (user : User)
  | GenerateFromPassword (password : String) (cost : Nat)
  | CompareHashAndPassword (hash password : String)
  | SignedString (method : SigningMethod) (claims : JwtClaims) (key : Bytes)
  | ParseWithClaims (token : String) (key : Bytes)
  | ParseAddress (address : String)
  | uuidNew
  deriving DecidableEq, Repr

/-- service.go: `type service struct` (the logger left out). -/
structure service where
  userRepository : UserRepository
  jwtConfig : JwtConfig

/-! ## strings.Split -/

namespace strings

/-- The pieces of `l` between the occurrences of `sep`: one more piece than
there are separators, so never the empty list. -/
def splitChars (sep : Char) : List Char → List (List Char)
  | [] => [[]]
  | c :: cs =>
    if c = sep then [] :: splitChars sep cs
    else
      match splitChars sep cs with
      | [] => [[c]]
      | p :: ps => (c :: p) :: ps

/-- Go `strings.Split(s, sep)` for a separator of one character. -/
def Split (s : String) (sep : Char) : List String :=
  (splitChars sep s.data).map String.mk

end strings

/-! ## user.go -/

/-- user.go: `func (u *User) Validate() error`. -/
def User.Validate (rt : Runtime) (u : User) : Option GoError :=
  match rt.ParseAddress u.Email with
  | some _ => some (errors.New "invalid user email")
  | none => none

/-! ## service.go -/

/-- service.go: `func (service *service) SignUp`. -/
def service.SignUp (rt : Runtime) (svc : service) (email password : String) :
    Option GoError × List Call :=
  let _start := rt.timeNow
  -- Checking if email already exists
  match svc.userRepository.GetUserByEmail email with
  | .ok _ =>
    (some (errors.New "user with this email already exists"), [Call.GetUserByEmail email])
  | .error _ =>
    -- Hashing password
    match rt.GenerateFromPassword password bcryptDefaultCost with
    | .error _ =>
      (some (errors.New "error while registering user"),
        [Call.GetUserByEmail email, Call.GenerateFromPassword password bcryptDefaultCost])
    | .ok hashedPassword =>
      -- User struct
      let user : User := { ID := rt.uuidNew, Email := email, Password := hashedPassword }
      -- User validation
      match user.Validate rt with
      | some err =>
        (some err,
          [Call.GetUserByEmail email, Call.GenerateFromPassword password bcryptDefaultCost,
            Call.uuidNew, Call.ParseAddress user.Email])
      | none =>
        -- Creating user record
        match svc.userRepository.CreateUser user with
        | some _ =>
          (some (errors.New "error while registering user"),
            [Call.GetUserByEmail email, Call.GenerateFromPassword password bcryptDefaultCost,
              Call.uuidNew, Call.ParseAddress user.Email, Call.CreateUser user])
        | none =>
          (none,
            [Call.GetUserByEmail email, Call.GenerateFromPassword password bcryptDefaultCost,
              Call.uuidNew, Call.ParseAddress user.Email, Call.CreateUser user])

/-- service.go: `func (service *service) SignIn`. -/
def service.SignIn (rt : Runtime) (svc : service) (email password : String) :
    (String × Option GoError) × List Call :=
  let _start := rt.timeNow
  -- Getting user record by email
  match svc.userRepository.GetUserByEmail email with
  | .error _ => (("", some (errors.New "user not found")), [Call.GetUserByEmail email])
  | .ok user =>
    -- Checking password
    match rt.CompareHashAndPassword user.Password password with
    | some _ =>
      (("", some (errors.New "invalid password")),
        [Call.GetUserByEmail email, Call.CompareHashAndPassword user.Password password])
    | none =>
      -- Token claims
      let claims : JwtClaims := { ID := user.ID, Email := user.Email }
      -- Generating token
      match rt.SignedString SigningMethod.HS512 claims svc.jwtConfig.SignKey with
      | .error _ =>
        (("", some (errors.New "authorization error")),
          [Call.GetUserByEmail email, Call.CompareHashAndPassword user.Password password,
            Call.SignedString SigningMethod.HS512 claims svc.jwtConfig.SignKey])
      | .ok tkn =>
        (("Bearer " ++ tkn, none),
          [Call.GetUserByEmail email, Call.CompareHashAndPassword user.Password password,
            Call.SignedString SigningMethod.HS512 claims svc.jwtConfig.SignKey])

/-- The Go index expression `parts[i]`: `none` is the out-of-range panic. -/
def index (parts : List String) (i : Nat) : Option String := parts.get? i

/-- service.go: `func (service *service) GetSelf`. The result is `none` when
an index expression panics. -/
def service.GetSelf (rt : Runtime) (svc : service) (token : String) :
    Option (User × Option GoError) × List Call :=
  let _start := rt.timeNow
  -- Splitting token
  let parts := strings.Split token ' '
  -- Checking token: `len(parts) != 2 || parts[0] != "Bearer"`
  if parts.length ≠ 2 then
    (some (User.empty, some (errors.New "invalid authorization token")), [])
  else
    match index parts 0 with
    | none => (none, [])
    | some scheme =>
      if scheme ≠ "Bearer" then
        (some (User.empty, some (errors.New "invalid authorization token")), [])
      else
        match index parts 1 with
        | none => (none, [])
        | some raw =>
          -- Parsing claims
          match rt.ParseWithClaims raw svc.jwtConfig.SignKey with
          | .error _ =>
            (some (User.empty, some (errors.New "invalid authorization token")),
              [Call.ParseWithClaims raw svc.jwtConfig.SignKey])
          | .ok parsed =>
            -- Checking is parsing valid
            if !parsed.Valid then
              (some (User.empty, some (errors.New "invalid authorization token")),
                [Call.ParseWithClaims raw svc.jwtConfig.SignKey])
            else
              -- Getting user record
              match svc.userRepository.GetUserByID parsed.Claims.ID with
              | .error _ =>
                (some (User.empty, some (errors.New "error getting user")),
                  [Call.ParseWithClaims raw svc.jwtConfig.SignKey,
                    Call.GetUserByID parsed.Claims.ID])
              | .ok user =>
                (some (user, none),
                  [Call.ParseWithClaims raw svc.jwtConfig.SignKey,
                    Call.GetUserByID parsed.Claims.ID])

/-! ## The header format of the specification -/

/-- The specification's reading of an authorization header: split on the
first occurrence of `sep` only (Go `strings.SplitN(s, sep, 2)`): one segment
when `sep` does not occur, else the text before it and all the text after it. -/
def specSplitFirst (s : String) (sep : Char) : List String :=
  match s.data.dropWhile (fun c => c != sep) with
  | [] => [s]
  | _ :: rest => [String.mk (s.data.takeWhile (fun c => c != sep)), String.mk rest]

/-! ## Observations on the calls -/

/-- Whether a call is a store write. -/
def Call.isCreateUser : Call → Bool
  | .CreateUser _ => true
  | _ => false

/-- Which collaborator operation a call is, its arguments forgotten. The
list of the kinds of the calls of a run tells which branch the run took. -/
def Call.kind : Call → String
  | .GetUserByEmail _ => "GetUserByEmail"
  | .GetUserByID _ => "GetUserByID"
  | .CreateUser _ => "CreateUser"
  | .GenerateFromPassword _ _ => "GenerateFromPassword"
  | .CompareHashAndPassword _ _ => "CompareHashAndPassword"
  | .SignedString _ _ _ => "SignedString"
  | .ParseWithClaims _ _ => "ParseWithClaims"
  | .ParseAddress _ => "ParseAddress"
  | .uuidNew => "uuid.New"

/-! ## Concrete collaborators

Stand-ins for the store and the libraries, used to evaluate the operations
on concrete inputs. -/

/-- The account of the end-to-end scenarios. -/
def sampleUser : User :=
  { ID := 7, Email := "a@example.com", Password := "$2a$10$pw123" }

/-- A store holding `sampleUser` only; every write succeeds. -/
def sampleRepo : UserRepository where
  GetUserByEmail e :=
    if e = "a@example.com" then .ok sampleUser else .error ⟨"sql: no rows in result set"⟩
  GetUserByID id :=
    if id = 7 then .ok sampleUser else .error ⟨"sql: no rows in result set"⟩
  CreateUser _ := none

/-- A store holding no account; every write succeeds. -/
def freshRepo : UserRepository where
  GetUserByEmail _ := .error ⟨"sql: no rows in result set"⟩
  GetUserByID _ := .error ⟨"sql: no rows in result set"⟩
  CreateUser _ := none

/-- The claims `SignIn` builds for `sampleUser`. -/
def sampleClaims : JwtClaims := { ID := 7, Email := "a@example.com" }

/-- Library stand-ins: a hasher that tags the password, a codec that knows
the one token of `sampleClaims`, an address check that looks for the at sign. -/
def sampleRuntime : Runtime where
  GenerateFromPassword p _ :=
    if p.length ≤ 72 then .ok ("$2a$10$" ++ p)
    else .error ⟨"bcrypt: password length exceeds 72 bytes"⟩
  CompareHashAndPassword h p :=
    if h = "$2a$10$" ++ p then none
    else some ⟨"crypto/bcrypt: hashedPassword is not the hash of the given password"⟩
  SignedString _ c _ :=
    if c = sampleClaims then .ok "hdr.claims.sig" else .error ⟨"key is invalid"⟩
  ParseWithClaims t _ :=
    if t = "hdr.claims.sig" then .ok ⟨sampleClaims, true⟩
    else .error ⟨"token is malformed"⟩
  ParseAddress s :=
    if '@' ∈ s.data then none else some ⟨"mail: missing at sign or angle-addr"⟩
  uuidNew := 8
  timeNow := ⟨1700000000⟩

/-- The service over `sampleRepo`. -/
def sampleService : service := ⟨sampleRepo, ⟨[115, 101, 99, 114, 101, 116]⟩⟩

/-- A store holding no account in which every write fails. -/
def failingRepo : UserRepository where
  GetUserByEmail _ := .error ⟨"sql: no rows in result set"⟩
  GetUserByID _ := .error ⟨"sql: no rows in result set"⟩
  CreateUser _ := some ⟨"failed to create user: pq: connection refused"⟩

/-- The service over `failingRepo`. -/
def failingService : service := ⟨failingRepo, ⟨[115, 101, 99, 114, 101, 116]⟩⟩

/-- A password of 73 bytes, one more than bcrypt takes. -/
def longPassword : String := String.mk (List.replicate 73 'x')

/-- The service over `freshRepo`. -/
def freshService : service := ⟨freshRepo, ⟨[115, 101, 99, 114, 101, 116]⟩⟩

/-! ## Facts about strings.Split -/

theorem splitChars_shape (sep : Char) (l : List Char) :
    ∃ ps, strings.splitChars sep l = l.takeWhile (fun c => c != sep) :: ps ∧
      (ps = [] ↔ sep ∉ l) := by
  induction l with
  | nil => exact ⟨[], by simp [strings.splitChars]⟩
  | cons c cs ih =>
    obtain ⟨ps, hps, hnil⟩ := ih
    by_cases hc : c = sep
    · refine ⟨strings.splitChars sep cs, ?_, ?_⟩
      · simp [strings.splitChars, hc]
      · simp [hps, hc]
    · refine ⟨ps, ?_, ?_⟩
      · simp [strings.splitChars, hc, hps]
      · rw [hnil]
        simp [List.mem_cons, Ne.symm hc]

theorem splitChars_of_not_mem (sep : Char) (l : List Char) (h : sep ∉ l) :
    strings.splitChars sep l = [l] := by
  obtain ⟨ps, hps, hnil⟩ := splitChars_shape sep l
  have hall : l.takeWhile (fun c => c != sep) = l := by
    rw [List.takeWhile_eq_self_iff]
    intro x hx
    have : x ≠ sep := fun hxs => h (hxs ▸ hx)
    simpa using this
  rw [hps, hnil.mpr h, hall]

theorem split_bearer (t : String) (hsp : ' ' ∉ t.data) :
    strings.Split ("Bearer " ++ t) ' ' = ["Bearer", t] := by
  have hdata : ("Bearer " ++ t).data = 'B' :: 'e' :: 'a' :: 'r' :: 'e' :: 'r' :: ' ' :: t.data := by
    rw [String.data_append]
    rfl
  simp [strings.Split, hdata, strings.splitChars, splitChars_of_not_mem ' ' t.data hsp]

/-! ## The branches of SignUp and SignIn -/

theorem signUp_of_found (rt : Runtime) (svc : service) (email password : String) (u : User)
    (hget : svc.userRepository.GetUserByEmail email = .ok u) :
    svc.SignUp rt email password =
      (some (errors.New "user with this email already exists"), [Call.GetUserByEmail email]) := by
  simp [service.SignUp, hget]

theorem signUp_of_hash_error (rt : Runtime) (svc : service) (email password : String)
    (e0 e1 : GoError) (hget : svc.userRepository.GetUserByEmail email = .error e0)
    (hhash : rt.GenerateFromPassword password bcryptDefaultCost = .error e1) :
    svc.SignUp rt email password =
      (some (errors.New "error while registering user"),
        [Call.GetUserByEmail email, Call.GenerateFromPassword password bcryptDefaultCost]) := by
  simp [service.SignUp, hget, hhash]

theorem signUp_of_invalid (rt : Runtime) (svc : service) (email password : String)
    (e0 e2 : GoError) (hashed : String)
    (hget : svc.userRepository.GetUserByEmail email = .error e0)
    (hhash : rt.GenerateFromPassword password bcryptDefaultCost = .ok hashed)
    (hmail : rt.ParseAddress email = some e2) :
    svc.SignUp rt email password =
      (some (errors.New "invalid user email"),
        [Call.GetUserByEmail email, Call.GenerateFromPassword password bcryptDefaultCost,
          Call.uuidNew, Call.ParseAddress email]) := by
  simp [service.SignUp, hget, hhash, User.Validate, hmail]

theorem signUp_of_create_error (rt : Runtime) (svc : service) (email password : String)
    (e0 e3 : GoError) (hashed : String)
    (hget : svc.userRepository.GetUserByEmail email = .error e0)
    (hhash : rt.GenerateFromPassword password bcryptDefaultCost = .ok hashed)
    (hmail : rt.ParseAddress email = none)
    (hcreate : svc.userRepository.CreateUser
      { ID := rt.uuidNew, Email := email, Password := hashed } = some e3) :
    svc.SignUp rt email password =
      (some (errors.New "error while registering user"),
        [Call.GetUserByEmail email, Call.GenerateFromPassword password bcryptDefaultCost,
          Call.uuidNew, Call.ParseAddress email,
          Call.CreateUser { ID := rt.uuidNew, Email := email, Password := hashed }]) := by
  simp [service.SignUp, hget, hhash, User.Validate, hmail, hcreate]

theorem signUp_of_created (rt : Runtime) (svc : service) (email password : String)
    (e0 : GoError) (hashed : String)
    (hget : svc.userRepository.GetUserByEmail email = .error e0)
    (hhash : rt.GenerateFromPassword password bcryptDefaultCost = .ok hashed)
    (hmail : rt.ParseAddress email = none)
    (hcreate : svc.userRepository.CreateUser
      { ID := rt.uuidNew, Email := email, Password := hashed } = none) :
    svc.SignUp rt email password =
      (none,
        [Call.GetUserByEmail email, Call.GenerateFromPassword password bcryptDefaultCost,
          Call.uuidNew, Call.ParseAddress email,
          Call.CreateUser { ID := rt.uuidNew, Email := email, Password := hashed }]) := by
  simp [service.SignUp, hget, hhash, User.Validate, hmail, hcreate]

theorem signIn_of_missing (rt : Runtime) (svc : service) (email password : String)
    (e0 : GoError) (hget : svc.userRepository.GetUserByEmail email = .error e0) :
    svc.SignIn rt email password =
      (("", some (errors.New "user not found")), [Call.GetUserByEmail email]) := by
  simp [service.SignIn, hget]

theorem signIn_of_mismatch (rt : Runtime) (svc : service) (email password : String)
    (u : User) (e1 : GoError) (hget : svc.userRepository.GetUserByEmail email = .ok u)
    (hcmp : rt.CompareHashAndPassword u.Password password = some e1) :
    svc.SignIn rt email password =
      (("", some (errors.New "invalid password")),
        [Call.GetUserByEmail email, Call.CompareHashAndPassword u.Password password]) := by
  simp [service.SignIn, hget, hcmp]

theorem signIn_of_sign_error (rt : Runtime) (svc : service) (email password : String)
    (u : User) (e2 : GoError) (hget : svc.userRepository.GetUserByEmail email = .ok u)
    (hcmp : rt.CompareHashAndPassword u.Password password = none)
    (hsig : rt.SignedString SigningMethod.HS512 { ID := u.ID, Email := u.Email }
      svc.jwtConfig.SignKey = .error e2) :
    svc.SignIn rt email password =
      (("", some (errors.New "authorization error")),
        [Call.GetUserByEmail email, Call.CompareHashAndPassword u.Password password,
          Call.SignedString SigningMethod.HS512 { ID := u.ID, Email := u.Email }
            svc.jwtConfig.SignKey]) := by
  simp [service.SignIn, hget, hcmp, hsig]

theorem signIn_of_signed (rt : Runtime) (svc : service) (email password : String)
    (u : User) (tkn : String) (hget : svc.userRepository.GetUserByEmail email = .ok u)
    (hcmp : rt.CompareHashAndPassword u.Password password = none)
    (hsig : rt.SignedString SigningMethod.HS512 { ID := u.ID, Email := u.Email }
      svc.jwtConfig.SignKey = .ok tkn) :
    svc.SignIn rt email password =
      (("Bearer " ++ tkn, none),
        [Call.GetUserByEmail email, Call.CompareHashAndPassword u.Password password,
          Call.SignedString SigningMethod.HS512 { ID := u.ID, Email := u.Email }
            svc.jwtConfig.SignKey]) := by
  simp [service.SignIn, hget, hcmp, hsig]

/-- Every run of SignUp takes one of its five branches. -/
theorem signUp_cases (rt : Runtime) (svc : service) (email password : String) :
    (∃ u, svc.userRepository.GetUserByEmail email = .ok u ∧
      svc.SignUp rt email password =
        (some (errors.New "user with this email already exists"),
          [Call.GetUserByEmail email])) ∨
    (∃ e0 e1, svc.userRepository.GetUserByEmail email = .error e0 ∧
      rt.GenerateFromPassword password bcryptDefaultCost = .error e1 ∧
      svc.SignUp rt email password =
        (some (errors.New "error while registering user"),
          [Call.GetUserByEmail email, Call.GenerateFromPassword password bcryptDefaultCost])) ∨
    (∃ e0 hashed e2, svc.userRepository.GetUserByEmail email = .error e0 ∧
      rt.GenerateFromPassword password bcryptDefaultCost = .ok hashed ∧
      rt.ParseAddress email = some e2 ∧
      svc.SignUp rt email password =
        (some (errors.New "invalid user email"),
          [Call.GetUserByEmail email, Call.GenerateFromPassword password bcryptDefaultCost,
            Call.uuidNew, Call.ParseAddress email])) ∨
    (∃ e0 hashed e3, svc.userRepository.GetUserByEmail email = .error e0 ∧
      rt.GenerateFromPassword password bcryptDefaultCost = .ok hashed ∧
      rt.ParseAddress email = none ∧
      svc.userRepository.CreateUser
        { ID := rt.uuidNew, Email := email, Password := hashed } = some e3 ∧
      svc.SignUp rt email password =
        (some (errors.New "error while registering user"),
          [Call.GetUserByEmail email, Call.GenerateFromPassword password bcryptDefaultCost,
            Call.uuidNew, Call.ParseAddress email,
            Call.CreateUser { ID := rt.uuidNew, Email := email, Password := hashed }])) ∨
    (∃ e0 hashed, svc.userRepository.GetUserByEmail email = .error e0 ∧
      rt.GenerateFromPassword password bcryptDefaultCost = .ok hashed ∧
      rt.ParseAddress email = none ∧
      svc.userRepository.CreateUser
        { ID := rt.uuidNew, Email := email, Password := hashed } = none ∧
      svc.SignUp rt email password =
        (none,
          [Call.GetUserByEmail email, Call.GenerateFromPassword password bcryptDefaultCost,
            Call.uuidNew, Call.ParseAddress email,
            Call.CreateUser { ID := rt.uuidNew, Email := email, Password := hashed }])) := by
  cases hget : svc.userRepository.GetUserByEmail email with
  | ok u => exact Or.inl ⟨u, rfl, signUp_of_found rt svc email password u hget⟩
  | error e0 =>
    cases hhash : rt.GenerateFromPassword password bcryptDefaultCost with
    | error e1 =>
      exact Or.inr (Or.inl ⟨e0, e1, rfl, rfl,
        signUp_of_hash_error rt svc email password e0 e1 hget hhash⟩)
    | ok hashed =>
      cases hmail : rt.ParseAddress email with
      | some e2 =>
        exact Or.inr (Or.inr (Or.inl ⟨e0, hashed, e2, rfl, rfl, rfl,
          signUp_of_invalid rt svc email password e0 e2 hashed hget hhash hmail⟩))
      | none =>
        cases hcreate : svc.userRepository.CreateUser
            { ID := rt.uuidNew, Email := email, Password := hashed } with
        | some e3 =>
          exact Or.inr (Or.inr (Or.inr (Or.inl ⟨e0, hashed, e3, rfl, rfl, rfl, hcreate,
            signUp_of_create_error rt svc email password e0 e3 hashed hget hhash hmail
              hcreate⟩)))
        | none =>
          exact Or.inr (Or.inr (Or.inr (Or.inr ⟨e0, hashed, rfl, rfl, rfl, hcreate,
            signUp_of_created rt svc email password e0 hashed hget hhash hmail hcreate⟩)))

/-- Every run of SignIn takes one of its four branches. -/
theorem signIn_cases (rt : Runtime) (svc : service) (email password : String) :
    (∃ e0, svc.userRepository.GetUserByEmail email = .error e0 ∧
      svc.SignIn rt email password =
        (("", some (errors.New "user not found")), [Call.GetUserByEmail email])) ∨
    (∃ u e1, svc.userRepository.GetUserByEmail email = .ok u ∧
      rt.CompareHashAndPassword u.Password password = some e1 ∧
      svc.SignIn rt email password =
        (("", some (errors.New "invalid password")),
          [Call.GetUserByEmail email, Call.CompareHashAndPassword u.Password password])) ∨
    (∃ u e2, svc.userRepository.GetUserByEmail email = .ok u ∧
      rt.CompareHashAndPassword u.Password password = none ∧
      rt.SignedString SigningMethod.HS512 { ID := u.ID, Email := u.Email }
        svc.jwtConfig.SignKey = .error e2 ∧
      svc.SignIn rt email password =
        (("", some (errors.New "authorization error")),
          [Call.GetUserByEmail email, Call.CompareHashAndPassword u.Password password,
            Call.SignedString SigningMethod.HS512 { ID := u.ID, Email := u.Email }
              svc.jwtConfig.SignKey])) ∨
    (∃ u tkn, svc.userRepository.GetUserByEmail email = .ok u ∧
      rt.CompareHashAndPassword u.Password password = none ∧
      rt.SignedString SigningMethod.HS512 { ID := u.ID, Email := u.Email }
        svc.jwtConfig.SignKey = .ok tkn ∧
      svc.SignIn rt email password =
        (("Bearer " ++ tkn, none),
          [Call.GetUserByEmail email, Call.CompareHashAndPassword u.Password password,
            Call.SignedString SigningMethod.HS512 { ID := u.ID, Email := u.Email }
              svc.jwtConfig.SignKey])) := by
  cases hget : svc.userRepository.GetUserByEmail email with
  | error e0 => exact Or.inl ⟨e0, rfl, signIn_of_missing rt svc email password e0 hget⟩
  | ok u =>
    cases hcmp : rt.CompareHashAndPassword u.Password password with
    | some e1 =>
      exact Or.inr (Or.inl ⟨u, e1, rfl, hcmp,
        signIn_of_mismatch rt svc email password u e1 hget hcmp⟩)
    | none =>
      cases hsig : rt.SignedString SigningMethod.HS512 { ID := u.ID, Email := u.Email }
          svc.jwtConfig.SignKey with
      | error e2 =>
        exact Or.inr (Or.inr (Or.inl ⟨u, e2, rfl, hcmp, hsig,
          signIn_of_sign_error rt svc email password u e2 hget hcmp hsig⟩))
      | ok tkn =>
        exact Or.inr (Or.inr (Or.inr ⟨u, tkn, rfl, hcmp, hsig,
          signIn_of_signed rt svc email password u tkn hget hcmp hsig⟩))

/-- Every run of GetSelf returns (no index expression panics) in one of its
four shapes. -/
theorem getSelf_cases (rt : Runtime) (svc : service) (token : String) :
    svc.GetSelf rt token =
      (some (User.empty, some (errors.New "invalid authorization token")), []) ∨
    (∃ raw, strings.Split token ' ' = ["Bearer", raw] ∧
      (∀ p, rt.ParseWithClaims raw svc.jwtConfig.SignKey ≠ .ok ⟨p, true⟩) ∧
      svc.GetSelf rt token =
        (some (User.empty, some (errors.New "invalid authorization token")),
          [Call.ParseWithClaims raw svc.jwtConfig.SignKey])) ∨
    (∃ raw c e, strings.Split token ' ' = ["Bearer", raw] ∧
      rt.ParseWithClaims raw svc.jwtConfig.SignKey = .ok ⟨c, true⟩ ∧
      svc.userRepository.GetUserByID c.ID = .error e ∧
      svc.GetSelf rt token =
        (some (User.empty, some (errors.New "error getting user")),
          [Call.ParseWithClaims raw svc.jwtConfig.SignKey, Call.GetUserByID c.ID])) ∨
    (∃ raw c u, strings.Split token ' ' = ["Bearer", raw] ∧
      rt.ParseWithClaims raw svc.jwtConfig.SignKey = .ok ⟨c, true⟩ ∧
      svc.userRepository.GetUserByID c.ID = .ok u ∧
      svc.GetSelf rt token =
        (some (u, none),
          [Call.ParseWithClaims raw svc.jwtConfig.SignKey, Call.GetUserByID c.ID])) := by
  unfold service.GetSelf
  by_cases hlen : (strings.Split token ' ').length = 2
  · obtain ⟨a, b, hab⟩ := List.length_eq_two.mp hlen
    by_cases ha : a = "Bearer"
    · subst ha
      cases hparse : rt.ParseWithClaims b svc.jwtConfig.SignKey with
      | error e =>
        refine Or.inr (Or.inl ⟨b, hab, ?_, ?_⟩)
        · intro p hp
          simp [hparse] at hp
        · simp [hab, index, hparse]
      | ok parsed =>
        obtain ⟨c, valid⟩ := parsed
        cases valid with
        | false =>
          refine Or.inr (Or.inl ⟨b, hab, ?_, ?_⟩)
          · intro p hp
            simp [hparse] at hp
          · simp [hab, index, hparse]
        | true =>
          cases hid : svc.userRepository.GetUserByID c.ID with
          | error e =>
            exact Or.inr (Or.inr (Or.inl ⟨b, c, e, hab, hparse, hid, by
              simp [hab, index, hparse, hid]⟩))
          | ok u =>
            exact Or.inr (Or.inr (Or.inr ⟨b, c, u, hab, hparse, hid, by
              simp [hab, index, hparse, hid]⟩))
    · exact Or.inl (by simp [hab, index, ha])
  · exact Or.inl (by simp [hlen])

/-! ## GetSelf: the header check -/

/-- C4: a header that, split on its first space, is not exactly the two
segments `Bearer` and a rest makes GetSelf return the empty User with the
error "invalid authorization token": it returns (no index panic) and calls
neither the token parser nor the store. -/
theorem getSelf_malformed_header (rt : Runtime) (svc : service) (h : String)
    (hbad : ¬ ∃ t, specSplitFirst h ' ' = ["Bearer", t]) :
    svc.GetSelf rt h =
      (some (User.empty, some (errors.New "invalid authorization token")), []) := by
  obtain ⟨ps, hps, hnil⟩ := splitChars_shape ' ' h.data
  unfold service.GetSelf
  simp only [strings.Split, hps, List.map_cons, List.length_cons, List.length_map]
  by_cases hlen : ps.length + 1 = 2
  · have hmem : ' ' ∈ h.data := by
      by_contra hno
      rw [hnil.mpr hno] at hlen
      simp at hlen
    by_cases hsch : String.mk (h.data.takeWhile (fun c => c != ' ')) = "Bearer"
    · exfalso
      apply hbad
      unfold specSplitFirst
      cases hdrop : h.data.dropWhile (fun c => c != ' ') with
      | nil =>
        rw [List.dropWhile_eq_nil_iff] at hdrop
        have := hdrop ' ' hmem
        simp at this
      | cons x rest => exact ⟨String.mk rest, by simp [hsch]⟩
    · simp [hlen, index, hsch]
  · simp [hlen]

theorem getSelf_malformed_header_witness :
    ((¬ ∃ t, specSplitFirst "" ' ' = ["Bearer", t]) ∧
      sampleService.GetSelf sampleRuntime "" =
        (some (User.empty, some (errors.New "invalid authorization token")), [])) ∧
    ((¬ ∃ t, specSplitFirst "pw123" ' ' = ["Bearer", t]) ∧
      sampleService.GetSelf sampleRuntime "pw123" =
        (some (User.empty, some (errors.New "invalid authorization token")), [])) ∧
    ((¬ ∃ t, specSplitFirst "bearer hdr.claims.sig" ' ' = ["Bearer", t]) ∧
      sampleService.GetSelf sampleRuntime "bearer hdr.claims.sig" =
        (some (User.empty, some (errors.New "invalid authorization token")), [])) ∧
    ((¬ ∃ t, specSplitFirst "Basic xyz" ' ' = ["Bearer", t]) ∧
      sampleService.GetSelf sampleRuntime "Basic xyz" =
        (some (User.empty, some (errors.New "invalid authorization token")), [])) := by
  have h0 : ¬ ∃ t, specSplitFirst "" ' ' = ["Bearer", t] := by
    rintro ⟨t, ht⟩
    have h : specSplitFirst "" ' ' = [""] := by decide
    simp [h] at ht
  have h1 : ¬ ∃ t, specSplitFirst "pw123" ' ' = ["Bearer", t] := by
    rintro ⟨t, ht⟩
    have h : specSplitFirst "pw123" ' ' = ["pw123"] := by decide
    simp [h] at ht
  have h2 : ¬ ∃ t, specSplitFirst "bearer hdr.claims.sig" ' ' = ["Bearer", t] := by
    rintro ⟨t, ht⟩
    have h : specSplitFirst "bearer hdr.claims.sig" ' ' = ["bearer", "hdr.claims.sig"] := by
      decide
    simp [h] at ht
  have h3 : ¬ ∃ t, specSplitFirst "Basic xyz" ' ' = ["Bearer", t] := by
    rintro ⟨t, ht⟩
    have h : specSplitFirst "Basic xyz" ' ' = ["Basic", "xyz"] := by decide
    simp [h] at ht
  exact ⟨⟨h0, getSelf_malformed_header _ _ _ h0⟩, ⟨h1, getSelf_malformed_header _ _ _ h1⟩,
    ⟨h2, getSelf_malformed_header _ _ _ h2⟩, ⟨h3, getSelf_malformed_header _ _ _ h3⟩⟩

/-! ## SignIn -/

/-- C1, as the code has it: for an email the store lookup fails on and for
an account whose password does not verify, SignIn returns the same empty token
and an error in both cases, but not the same error: "user not found" for the
first, "invalid password" for the second, whatever the store error, the hash
and the passwords are. -/
theorem signIn_failure_messages (rt : Runtime) (svc : service)
    (e1 p1 e2 p2 : String) (err cmpErr : GoError) (u : User)
    (hmiss : svc.userRepository.GetUserByEmail e1 = .error err)
    (hfound : svc.userRepository.GetUserByEmail e2 = .ok u)
    (hpw : rt.CompareHashAndPassword u.Password p2 = some cmpErr) :
    (svc.SignIn rt e1 p1).1 = ("", some (errors.New "user not found")) ∧
    (svc.SignIn rt e2 p2).1 = ("", some (errors.New "invalid password")) ∧
    (svc.SignIn rt e1 p1).1.1 = (svc.SignIn rt e2 p2).1.1 ∧
    (svc.SignIn rt e1 p1).1.2 ≠ (svc.SignIn rt e2 p2).1.2 := by
  rw [signIn_of_missing rt svc e1 p1 err hmiss, signIn_of_mismatch rt svc e2 p2 u cmpErr hfound hpw]
  simp [errors.New]

theorem signIn_failure_messages_witness :
    (sampleService.SignIn sampleRuntime "noone@example.com" "x").1 =
      ("", some (errors.New "user not found")) ∧
    (sampleService.SignIn sampleRuntime "a@example.com" "wrongpw").1 =
      ("", some (errors.New "invalid password")) ∧
    (sampleService.SignIn sampleRuntime "noone@example.com" "x").1.1 =
      (sampleService.SignIn sampleRuntime "a@example.com" "wrongpw").1.1 ∧
    (sampleService.SignIn sampleRuntime "noone@example.com" "x").1.2 ≠
      (sampleService.SignIn sampleRuntime "a@example.com" "wrongpw").1.2 :=
  signIn_failure_messages sampleRuntime sampleService "noone@example.com" "x"
    "a@example.com" "wrongpw" ⟨"sql: no rows in result set"⟩
    ⟨"crypto/bcrypt: hashedPassword is not the hash of the given password"⟩ sampleUser
    (by decide) (by decide) (by decide)

/-- C1 fails as stated: with the account a@example.com in the store, the
lookup of noone@example.com fails and the password wrongpw does not verify, and
SignIn returns two different errors for them. -/
theorem signIn_unknown_email_vs_wrong_password :
    sampleService.userRepository.GetUserByEmail "noone@example.com" =
      .error ⟨"sql: no rows in result set"⟩ ∧
    sampleService.userRepository.GetUserByEmail "a@example.com" = .ok sampleUser ∧
    sampleRuntime.CompareHashAndPassword sampleUser.Password "wrongpw" ≠ none ∧
    (sampleService.SignIn sampleRuntime "noone@example.com" "x").1 =
      ("", some ⟨"user not found"⟩) ∧
    (sampleService.SignIn sampleRuntime "a@example.com" "wrongpw").1 =
      ("", some ⟨"invalid password"⟩) ∧
    (sampleService.SignIn sampleRuntime "noone@example.com" "x").1 ≠
      (sampleService.SignIn sampleRuntime "a@example.com" "wrongpw").1 := by
  decide

/-- C3: SignIn returns a nil error exactly when the store finds an account
for the email, the password verifies against that account's hash and signing
succeeds; the string is then "Bearer " followed by the token signed with HS512
and the configured key for claims holding the stored account's id and email
and no registered claim; whenever the error is not nil the string is empty. -/
theorem signIn_success_iff (rt : Runtime) (svc : service) (email password : String) :
    ((svc.SignIn rt email password).1.2 = none ↔
      ∃ u tkn, svc.userRepository.GetUserByEmail email = .ok u ∧
        rt.CompareHashAndPassword u.Password password = none ∧
        rt.SignedString SigningMethod.HS512
          { Registered := RegisteredClaims.empty, ID := u.ID, Email := u.Email }
          svc.jwtConfig.SignKey = .ok tkn) ∧
    (∀ u tkn, svc.userRepository.GetUserByEmail email = .ok u →
      rt.CompareHashAndPassword u.Password password = none →
      rt.SignedString SigningMethod.HS512
          { Registered := RegisteredClaims.empty, ID := u.ID, Email := u.Email }
          svc.jwtConfig.SignKey = .ok tkn →
      (svc.SignIn rt email password).1 = ("Bearer " ++ tkn, none)) ∧
    ((svc.SignIn rt email password).1.2 ≠ none → (svc.SignIn rt email password).1.1 = "") := by
  cases hget : svc.userRepository.GetUserByEmail email with
  | error e => simp [signIn_of_missing rt svc email password e hget]
  | ok u =>
    cases hcmp : rt.CompareHashAndPassword u.Password password with
    | some e =>
      rw [signIn_of_mismatch rt svc email password u e hget hcmp]
      refine ⟨⟨fun h => by simp at h, ?_⟩, ?_, fun _ => rfl⟩
      · rintro ⟨v, t, hv, hc, -⟩
        cases hv
        simp [hcmp] at hc
      · intro v t hv hc
        cases hv
        simp [hcmp] at hc
    | none =>
      cases hsig : rt.SignedString SigningMethod.HS512 { ID := u.ID, Email := u.Email }
          svc.jwtConfig.SignKey with
      | error e =>
        rw [signIn_of_sign_error rt svc email password u e hget hcmp hsig]
        refine ⟨⟨fun h => by simp at h, ?_⟩, ?_, fun _ => rfl⟩
        · rintro ⟨v, t, hv, -, hs⟩
          cases hv
          simp [hsig] at hs
        · intro v t hv _ hs
          cases hv
          simp [hsig] at hs
      | ok tkn =>
        rw [signIn_of_signed rt svc email password u tkn hget hcmp hsig]
        refine ⟨⟨fun _ => ⟨u, tkn, rfl, hcmp, hsig⟩, fun _ => rfl⟩, ?_, fun h => absurd rfl h⟩
        intro v t hv _ hs
        cases hv
        rw [hsig] at hs
        cases hs
        rfl

theorem signIn_success_iff_witness :
    (sampleService.SignIn sampleRuntime "a@example.com" "pw123").1 =
      ("Bearer " ++ "hdr.claims.sig", none) ∧
    (sampleService.SignIn sampleRuntime "a@example.com" "wrongpw").1.1 = "" :=
  ⟨(signIn_success_iff sampleRuntime sampleService "a@example.com" "pw123").2.1
      sampleUser "hdr.claims.sig" (by decide) (by decide) (by decide),
    (signIn_success_iff sampleRuntime sampleService "a@example.com" "wrongpw").2.2
      (by decide)⟩

/-! ## SignUp -/

/-- C2: SignUp returns "user with this email already exists" exactly when
the pre-check GetUserByEmail returns an account; the pre-check is then the
only call made (no hashing, no CreateUser). When the pre-check returns an
error, whichever it is, SignUp goes on: it hashes the password, then
validates the address when hashing succeeded, then calls CreateUser with the
new user when the address is valid. -/
theorem signUp_duplicate_iff (rt : Runtime) (svc : service) (email password : String) :
    ((svc.SignUp rt email password).1 =
        some (errors.New "user with this email already exists") ↔
      ∃ u, svc.userRepository.GetUserByEmail email = .ok u) ∧
    (∀ u, svc.userRepository.GetUserByEmail email = .ok u →
      (svc.SignUp rt email password).2 = [Call.GetUserByEmail email]) ∧
    (∀ e0, svc.userRepository.GetUserByEmail email = .error e0 →
      Call.GenerateFromPassword password bcryptDefaultCost ∈ (svc.SignUp rt email password).2 ∧
      ∀ hashed, rt.GenerateFromPassword password bcryptDefaultCost = .ok hashed →
        Call.ParseAddress email ∈ (svc.SignUp rt email password).2 ∧
        (rt.ParseAddress email = none →
          Call.CreateUser { ID := rt.uuidNew, Email := email, Password := hashed } ∈
            (svc.SignUp rt email password).2)) := by
  rcases signUp_cases rt svc email password with
    ⟨u, hget, h⟩ | ⟨e0, e1, hget, hhash, h⟩ | ⟨e0, hashed, e2, hget, hhash, hmail, h⟩ |
    ⟨e0, hashed, e3, hget, hhash, hmail, hcreate, h⟩ | ⟨e0, hashed, hget, hhash, hmail, hcreate, h⟩
  · simp [h, hget, errors.New]
  · simp [h, hget, hhash, errors.New]
  · simp [h, hget, hhash, hmail, errors.New]
  · simp [h, hget, hhash, hmail, errors.New]
  · simp [h, hget, hhash, hmail, errors.New]

theorem signUp_duplicate_iff_witness :
    sampleService.SignUp sampleRuntime "a@example.com" "other" =
      (some (errors.New "user with this email already exists"),
        [Call.GetUserByEmail "a@example.com"]) ∧
    Call.CreateUser { ID := 8, Email := "b@example.com", Password := "$2a$10$pw123" } ∈
      (sampleService.SignUp sampleRuntime "b@example.com" "pw123").2 := by
  have h1 := (signUp_duplicate_iff sampleRuntime sampleService "a@example.com" "other").1.mpr
    ⟨sampleUser, by decide⟩
  have h2 := (signUp_duplicate_iff sampleRuntime sampleService "a@example.com" "other").2.1
    sampleUser (by decide)
  have h3 := ((signUp_duplicate_iff sampleRuntime sampleService "b@example.com" "pw123").2.2
    ⟨"sql: no rows in result set"⟩ (by decide)).2 "$2a$10$pw123" (by decide)
  exact ⟨Prod.ext h1 h2, h3.2 (by decide)⟩

/-- C7: when the address is rejected by the mail parser, the pre-check
finds no account and hashing succeeds, SignUp returns the error of
User.Validate as it is, "invalid user email", and makes no CreateUser call. -/
theorem signUp_invalid_email (rt : Runtime) (svc : service) (email password : String)
    (e0 e2 : GoError) (hashed : String)
    (hget : svc.userRepository.GetUserByEmail email = .error e0)
    (hhash : rt.GenerateFromPassword password bcryptDefaultCost = .ok hashed)
    (hmail : rt.ParseAddress email = some e2) :
    (svc.SignUp rt email password).1 =
        User.Validate rt { ID := rt.uuidNew, Email := email, Password := hashed } ∧
    (svc.SignUp rt email password).1 = some (errors.New "invalid user email") ∧
    (svc.SignUp rt email password).2 =
      [Call.GetUserByEmail email, Call.GenerateFromPassword password bcryptDefaultCost,
        Call.uuidNew, Call.ParseAddress email] ∧
    ∀ u, Call.CreateUser u ∉ (svc.SignUp rt email password).2 := by
  rw [signUp_of_invalid rt svc email password e0 e2 hashed hget hhash hmail]
  simp [User.Validate, hmail]

theorem signUp_invalid_email_witness :
    (freshService.SignUp sampleRuntime "not-an-email" "pw123").1 =
        User.Validate sampleRuntime
          { ID := 8, Email := "not-an-email", Password := "$2a$10$pw123" } ∧
    (freshService.SignUp sampleRuntime "not-an-email" "pw123").1 =
      some (errors.New "invalid user email") ∧
    (freshService.SignUp sampleRuntime "not-an-email" "pw123").2 =
      [Call.GetUserByEmail "not-an-email", Call.GenerateFromPassword "pw123" bcryptDefaultCost,
        Call.uuidNew, Call.ParseAddress "not-an-email"] ∧
    ∀ u, Call.CreateUser u ∉ (freshService.SignUp sampleRuntime "not-an-email" "pw123").2 :=
  signUp_invalid_email sampleRuntime freshService "not-an-email" "pw123"
    ⟨"sql: no rows in result set"⟩ ⟨"mail: missing at sign or angle-addr"⟩ "$2a$10$pw123"
    (by decide) (by decide) (by decide)

/-- Neither SignIn nor GetSelf writes to the store. -/
theorem signIn_getSelf_no_write (rt : Runtime) (svc : service) (a b : String) (u : User) :
    Call.CreateUser u ∉ (svc.SignIn rt a b).2 ∧ Call.CreateUser u ∉ (svc.GetSelf rt a).2 := by
  constructor
  · rcases signIn_cases rt svc a b with
      ⟨e0, _, h⟩ | ⟨v, e1, _, _, h⟩ | ⟨v, e2, _, _, _, h⟩ | ⟨v, tkn, _, _, _, h⟩
    all_goals simp [h]
  · rcases getSelf_cases rt svc a with
      h | ⟨raw, _, _, h⟩ | ⟨raw, c, e, _, _, _, h⟩ | ⟨raw, c, v, _, _, _, h⟩
    all_goals simp [h]

/-- C8: in every run of SignUp there is at most one CreateUser call, and
the User of such a call has the supplied email, which passes the validation
of the mail parser (and so is not empty, the parser rejecting the empty
string), and has as Password the output of the hasher on the supplied
password (so not the plaintext, unless the hasher returned it). SignIn and
GetSelf make no CreateUser call. -/
theorem signUp_persisted_user (rt : Runtime) (svc : service) (email password : String) :
    ((svc.SignUp rt email password).2.filter Call.isCreateUser).length ≤ 1 ∧
    (∀ u, Call.CreateUser u ∈ (svc.SignUp rt email password).2 →
      u.Email = email ∧ rt.ParseAddress u.Email = none ∧ User.Validate rt u = none ∧
      (rt.ParseAddress "" ≠ none → u.Email ≠ "") ∧
      rt.GenerateFromPassword password bcryptDefaultCost = .ok u.Password ∧
      (rt.GenerateFromPassword password bcryptDefaultCost ≠ .ok password →
        u.Password ≠ password)) ∧
    (∀ e p u, Call.CreateUser u ∉ (svc.SignIn rt e p).2) ∧
    (∀ t u, Call.CreateUser u ∉ (svc.GetSelf rt t).2) := by
  refine ⟨?_, ?_, fun e p u => (signIn_getSelf_no_write rt svc e p u).1,
    fun t u => (signIn_getSelf_no_write rt svc t t u).2⟩
  · rcases signUp_cases rt svc email password with
      ⟨u, hget, h⟩ | ⟨e0, e1, hget, hhash, h⟩ | ⟨e0, hashed, e2, hget, hhash, hmail, h⟩ |
      ⟨e0, hashed, e3, hget, hhash, hmail, hcreate, h⟩ |
      ⟨e0, hashed, hget, hhash, hmail, hcreate, h⟩
    all_goals simp [h, Call.isCreateUser, List.filter]
  · intro u hu
    have key : u = { ID := rt.uuidNew, Email := email, Password := u.Password } ∧
        rt.ParseAddress email = none ∧
        rt.GenerateFromPassword password bcryptDefaultCost = .ok u.Password := by
      rcases signUp_cases rt svc email password with
        ⟨v, hget, h⟩ | ⟨e0, e1, hget, hhash, h⟩ | ⟨e0, hashed, e2, hget, hhash, hmail, h⟩ |
        ⟨e0, hashed, e3, hget, hhash, hmail, hcreate, h⟩ |
        ⟨e0, hashed, hget, hhash, hmail, hcreate, h⟩
      all_goals simp [h] at hu
      all_goals subst hu
      all_goals exact ⟨rfl, hmail, hhash⟩
    obtain ⟨hu_eq, hmail, hhash⟩ := key
    have hemail : u.Email = email := by rw [hu_eq]
    refine ⟨hemail, by rw [hemail]; exact hmail, by simp [User.Validate, hemail, hmail], ?_,
      hhash, ?_⟩
    · intro hempty hnil
      apply hempty
      rw [← hnil, hemail]
      exact hmail
    · intro hne hpw
      apply hne
      rw [hpw] at hhash
      exact hhash

theorem signUp_persisted_user_witness :
    Call.CreateUser { ID := 8, Email := "a@example.com", Password := "$2a$10$pw123" } ∈
      (freshService.SignUp sampleRuntime "a@example.com" "pw123").2 ∧
    sampleRuntime.ParseAddress "" ≠ none ∧
    sampleRuntime.GenerateFromPassword "pw123" bcryptDefaultCost = .ok "$2a$10$pw123" ∧
    ("$2a$10$pw123" : String) ≠ "pw123" := by
  have hin : Call.CreateUser { ID := 8, Email := "a@example.com", Password := "$2a$10$pw123" } ∈
      (freshService.SignUp sampleRuntime "a@example.com" "pw123").2 := by decide
  have h := (signUp_persisted_user sampleRuntime freshService "a@example.com" "pw123").2.1 _ hin
  exact ⟨hin, by decide, h.2.2.2.2.1, h.2.2.2.2.2 (by decide)⟩

/-- Every User handed to CreateUser by SignUp has the zero time in both
timestamp fields, whatever the clock reads. -/
theorem signUp_created_user_timestamps (rt : Runtime) (svc : service)
    (email password : String) (u : User)
    (hu : Call.CreateUser u ∈ (svc.SignUp rt email password).2) :
    u.CreatedAt = Time.zero ∧ u.UpdatedAt = Time.zero := by
  rcases signUp_cases rt svc email password with
    ⟨v, hget, h⟩ | ⟨e0, e1, hget, hhash, h⟩ | ⟨e0, hashed, e2, hget, hhash, hmail, h⟩ |
    ⟨e0, hashed, e3, hget, hhash, hmail, hcreate, h⟩ |
    ⟨e0, hashed, hget, hhash, hmail, hcreate, h⟩
  all_goals simp [h] at hu
  all_goals subst hu
  all_goals exact ⟨rfl, rfl⟩

/-- C9 (the code at the failing input): the first registration of
a@example.com succeeds and the User it hands to CreateUser has CreatedAt and
UpdatedAt at the zero time, though the clock reads a later instant. -/
theorem signUp_timestamps_unset :
    freshService.SignUp sampleRuntime "a@example.com" "pw123" =
      (none,
        [Call.GetUserByEmail "a@example.com", Call.GenerateFromPassword "pw123" 10,
          Call.uuidNew, Call.ParseAddress "a@example.com",
          Call.CreateUser
            { ID := 8, Email := "a@example.com", Password := "$2a$10$pw123",
              CreatedAt := Time.zero, UpdatedAt := Time.zero }]) ∧
    sampleRuntime.timeNow = ⟨1700000000⟩ ∧
    sampleRuntime.timeNow ≠ Time.zero := by
  decide

/-! ## GetSelf: the lookup -/

/-- GetSelf on a Bearer header whose token parses as valid: one parser call
and one store call, whose answer decides the result. -/
theorem getSelf_of_parsed (rt : Runtime) (svc : service) (t : String) (c : JwtClaims)
    (hsp : ' ' ∉ t.data)
    (hparse : rt.ParseWithClaims t svc.jwtConfig.SignKey = .ok ⟨c, true⟩) :
    svc.GetSelf rt ("Bearer " ++ t) =
      (match svc.userRepository.GetUserByID c.ID with
        | .ok u => some (u, none)
        | .error _ => some (User.empty, some (errors.New "error getting user")),
        [Call.ParseWithClaims t svc.jwtConfig.SignKey, Call.GetUserByID c.ID]) := by
  unfold service.GetSelf
  cases hid : svc.userRepository.GetUserByID c.ID <;>
    simp [split_bearer t hsp, index, hparse, hid]

/-- C6: for a header "Bearer t" whose token t (a compact token, so without
a space) parses as valid under the signing key to claims c, GetSelf makes the
one store call GetUserByID(c.ID): it returns the record the store returns,
unchanged and with a nil error, and the empty User with "error getting user"
when the store returns an error, whichever it is. -/
theorem getSelf_valid_token (rt : Runtime) (svc : service) (t : String) (c : JwtClaims)
    (hsp : ' ' ∉ t.data)
    (hparse : rt.ParseWithClaims t svc.jwtConfig.SignKey = .ok ⟨c, true⟩) :
    (svc.GetSelf rt ("Bearer " ++ t)).2 =
      [Call.ParseWithClaims t svc.jwtConfig.SignKey, Call.GetUserByID c.ID] ∧
    (∀ u, svc.userRepository.GetUserByID c.ID = .ok u →
      (svc.GetSelf rt ("Bearer " ++ t)).1 = some (u, none)) ∧
    (∀ e, svc.userRepository.GetUserByID c.ID = .error e →
      (svc.GetSelf rt ("Bearer " ++ t)).1 =
        some (User.empty, some (errors.New "error getting user"))) := by
  rw [getSelf_of_parsed rt svc t c hsp hparse]
  refine ⟨rfl, ?_, ?_⟩
  · intro u hu
    simp [hu]
  · intro e he
    simp [he]

theorem getSelf_valid_token_witness :
    (sampleService.GetSelf sampleRuntime ("Bearer " ++ "hdr.claims.sig")).1 =
      some (sampleUser, none) ∧
    (freshService.GetSelf sampleRuntime ("Bearer " ++ "hdr.claims.sig")).1 =
      some (User.empty, some (errors.New "error getting user")) :=
  ⟨(getSelf_valid_token sampleRuntime sampleService "hdr.claims.sig" sampleClaims
      (by decide) (by decide)).2.1 sampleUser (by decide),
    (getSelf_valid_token sampleRuntime freshService "hdr.claims.sig" sampleClaims
      (by decide) (by decide)).2.2 ⟨"sql: no rows in result set"⟩ (by decide)⟩

/-- C5: let the codec parse every token it signs back to the signed claims,
as valid, and sign no token with a space in it. If the store finds the
account u for the email, the password verifies against u's hash and signing
u's claims succeeds, then SignIn returns "Bearer " and the token, and GetSelf
on that string (same key, same store) passes the header check, parses the
token to claims with id u.ID, asks the store for GetUserByID(u.ID) and returns
the record the store returns. -/
theorem signIn_getSelf_round_trip (rt : Runtime) (svc : service) (e p : String)
    (u : User) (tkn : String)
    (hround : ∀ c t, rt.SignedString SigningMethod.HS512 c svc.jwtConfig.SignKey = .ok t →
      rt.ParseWithClaims t svc.jwtConfig.SignKey = .ok ⟨c, true⟩)
    (hspace : ∀ c t, rt.SignedString SigningMethod.HS512 c svc.jwtConfig.SignKey = .ok t →
      ' ' ∉ t.data)
    (hget : svc.userRepository.GetUserByEmail e = .ok u)
    (hpw : rt.CompareHashAndPassword u.Password p = none)
    (hsign : rt.SignedString SigningMethod.HS512 { ID := u.ID, Email := u.Email }
      svc.jwtConfig.SignKey = .ok tkn) :
    (svc.SignIn rt e p).1 = ("Bearer " ++ tkn, none) ∧
    strings.Split (svc.SignIn rt e p).1.1 ' ' = ["Bearer", tkn] ∧
    (∃ c, rt.ParseWithClaims tkn svc.jwtConfig.SignKey = .ok ⟨c, true⟩ ∧ c.ID = u.ID) ∧
    (svc.GetSelf rt (svc.SignIn rt e p).1.1).2 =
      [Call.ParseWithClaims tkn svc.jwtConfig.SignKey, Call.GetUserByID u.ID] ∧
    (∀ r, svc.userRepository.GetUserByID u.ID = .ok r →
      (svc.GetSelf rt (svc.SignIn rt e p).1.1).1 = some (r, none)) := by
  have hsp := hspace _ _ hsign
  have hparse := hround _ _ hsign
  have h1 : (svc.SignIn rt e p).1 = ("Bearer " ++ tkn, none) := by
    rw [signIn_of_signed rt svc e p u tkn hget hpw hsign]
  have h11 : (svc.SignIn rt e p).1.1 = "Bearer " ++ tkn := by rw [h1]
  rw [h11, getSelf_of_parsed rt svc tkn _ hsp hparse]
  refine ⟨h1, split_bearer tkn hsp, ⟨_, hparse, rfl⟩, rfl, ?_⟩
  intro r hr
  simp [hr]

theorem signIn_getSelf_round_trip_witness :
    (sampleService.SignIn sampleRuntime "a@example.com" "pw123").1 =
      ("Bearer " ++ "hdr.claims.sig", none) ∧
    (sampleService.GetSelf sampleRuntime
      (sampleService.SignIn sampleRuntime "a@example.com" "pw123").1.1).1 =
      some (sampleUser, none) := by
  have h := signIn_getSelf_round_trip sampleRuntime sampleService "a@example.com" "pw123"
    sampleUser "hdr.claims.sig"
    (by
      intro c t hs
      have hs2 : (if c = sampleClaims then Except.ok "hdr.claims.sig"
          else Except.error (⟨"key is invalid"⟩ : GoError)) = Except.ok t := hs
      by_cases hc : c = sampleClaims
      · rw [if_pos hc] at hs2
        cases hs2
        rw [hc]
        decide
      · rw [if_neg hc] at hs2
        cases hs2)
    (by
      intro c t hs
      have hs2 : (if c = sampleClaims then Except.ok "hdr.claims.sig"
          else Except.error (⟨"key is invalid"⟩ : GoError)) = Except.ok t := hs
      by_cases hc : c = sampleClaims
      · rw [if_pos hc] at hs2
        cases hs2
        decide
      · rw [if_neg hc] at hs2
        cases hs2)
    (by decide) (by decide) (by decide)
  exact ⟨h.1, h.2.2.2.2 sampleUser (by decide)⟩

/-! ## The errors that cross the boundary -/

/-- C10: every error SignUp, SignIn and GetSelf return is one of eight
constant messages, and the message is fixed by the branch taken: two failing
runs of one operation that made the same kinds of collaborator calls return
the same error, whatever the passwords, hashes, keys and collaborator errors
were. SignUp returns "error while registering user" for a hashing failure and
for every CreateUser error. -/
theorem errors_are_constants :
    (∀ (rt : Runtime) (svc : service) (email password : String) (err : GoError),
      (svc.SignUp rt email password).1 = some err →
      err ∈ [errors.New "user with this email already exists",
        errors.New "error while registering user", errors.New "invalid user email"]) ∧
    (∀ (rt : Runtime) (svc : service) (email password : String) (err : GoError),
      (svc.SignIn rt email password).1.2 = some err →
      err ∈ [errors.New "user not found", errors.New "invalid password",
        errors.New "authorization error"]) ∧
    (∀ (rt : Runtime) (svc : service) (token : String),
      ∃ r, (svc.GetSelf rt token).1 = some r ∧ ∀ err, r.2 = some err →
        err ∈ [errors.New "invalid authorization token", errors.New "error getting user"]) ∧
    (∀ (rt1 rt2 : Runtime) (svc1 svc2 : service) (email1 password1 email2 password2 : String)
      (err1 err2 : GoError),
      (svc1.SignUp rt1 email1 password1).1 = some err1 →
      (svc2.SignUp rt2 email2 password2).1 = some err2 →
      (svc1.SignUp rt1 email1 password1).2.map Call.kind =
        (svc2.SignUp rt2 email2 password2).2.map Call.kind →
      err1 = err2) ∧
    (∀ (rt1 rt2 : Runtime) (svc1 svc2 : service) (email1 password1 email2 password2 : String)
      (err1 err2 : GoError),
      (svc1.SignIn rt1 email1 password1).1.2 = some err1 →
      (svc2.SignIn rt2 email2 password2).1.2 = some err2 →
      (svc1.SignIn rt1 email1 password1).2.map Call.kind =
        (svc2.SignIn rt2 email2 password2).2.map Call.kind →
      err1 = err2) ∧
    (∀ (rt1 rt2 : Runtime) (svc1 svc2 : service) (token1 token2 : String)
      (r1 r2 : User × Option GoError) (err1 err2 : GoError),
      (svc1.GetSelf rt1 token1).1 = some r1 → r1.2 = some err1 →
      (svc2.GetSelf rt2 token2).1 = some r2 → r2.2 = some err2 →
      (svc1.GetSelf rt1 token1).2.map Call.kind = (svc2.GetSelf rt2 token2).2.map Call.kind →
      err1 = err2) ∧
    (∀ (rt : Runtime) (svc : service) (email password : String) (e0 e1 : GoError),
      svc.userRepository.GetUserByEmail email = .error e0 →
      rt.GenerateFromPassword password bcryptDefaultCost = .error e1 →
      (svc.SignUp rt email password).1 = some (errors.New "error while registering user")) ∧
    (∀ (rt : Runtime) (svc : service) (email password : String) (e0 e3 : GoError)
      (hashed : String),
      svc.userRepository.GetUserByEmail email = .error e0 →
      rt.GenerateFromPassword password bcryptDefaultCost = .ok hashed →
      rt.ParseAddress email = none →
      svc.userRepository.CreateUser
        { ID := rt.uuidNew, Email := email, Password := hashed } = some e3 →
      (svc.SignUp rt email password).1 = some (errors.New "error while registering user")) := by
  refine ⟨?_, ?_, ?_, ?_, ?_, ?_, ?_, ?_⟩
  · intro rt svc email password err herr
    rcases signUp_cases rt svc email password with
      ⟨_, _, h⟩ | ⟨_, _, _, _, h⟩ | ⟨_, _, _, _, _, _, h⟩ | ⟨_, _, _, _, _, _, _, h⟩ |
      ⟨_, _, _, _, _, _, h⟩
    all_goals simp [h] at herr
    all_goals simp [← herr]
  · intro rt svc email password err herr
    rcases signIn_cases rt svc email password with
      ⟨_, _, h⟩ | ⟨_, _, _, _, h⟩ | ⟨_, _, _, _, _, h⟩ | ⟨_, _, _, _, _, h⟩
    all_goals simp [h] at herr
    all_goals simp [← herr]
  · intro rt svc token
    rcases getSelf_cases rt svc token with
      h | ⟨_, _, _, h⟩ | ⟨_, _, _, _, _, _, h⟩ | ⟨_, _, _, _, _, _, h⟩
    all_goals simp [h]
  · intro rt1 rt2 svc1 svc2 email1 password1 email2 password2 err1 err2 h1 h2 hk
    rcases signUp_cases rt1 svc1 email1 password1 with
      ⟨_, _, a⟩ | ⟨_, _, _, _, a⟩ | ⟨_, _, _, _, _, _, a⟩ | ⟨_, _, _, _, _, _, _, a⟩ |
      ⟨_, _, _, _, _, _, a⟩ <;>
    rcases signUp_cases rt2 svc2 email2 password2 with
      ⟨_, _, b⟩ | ⟨_, _, _, _, b⟩ | ⟨_, _, _, _, _, _, b⟩ | ⟨_, _, _, _, _, _, _, b⟩ |
      ⟨_, _, _, _, _, _, b⟩ <;>
    simp [a, b, Call.kind] at h1 h2 hk <;>
    simp [← h1, ← h2]
  · intro rt1 rt2 svc1 svc2 email1 password1 email2 password2 err1 err2 h1 h2 hk
    rcases signIn_cases rt1 svc1 email1 password1 with
      ⟨_, _, a⟩ | ⟨_, _, _, _, a⟩ | ⟨_, _, _, _, _, a⟩ | ⟨_, _, _, _, _, a⟩ <;>
    rcases signIn_cases rt2 svc2 email2 password2 with
      ⟨_, _, b⟩ | ⟨_, _, _, _, b⟩ | ⟨_, _, _, _, _, b⟩ | ⟨_, _, _, _, _, b⟩ <;>
    simp [a, b, Call.kind] at h1 h2 hk <;>
    simp [← h1, ← h2]
  · intro rt1 rt2 svc1 svc2 token1 token2 r1 r2 err1 err2 h1 g1 h2 g2 hk
    rcases getSelf_cases rt1 svc1 token1 with
      a | ⟨_, _, _, a⟩ | ⟨_, _, _, _, _, _, a⟩ | ⟨_, _, _, _, _, _, a⟩ <;>
    rcases getSelf_cases rt2 svc2 token2 with
      b | ⟨_, _, _, b⟩ | ⟨_, _, _, _, _, _, b⟩ | ⟨_, _, _, _, _, _, b⟩ <;>
    simp [a, b, Call.kind] at h1 h2 hk <;>
    subst h1 <;> subst h2 <;>
    simp at g1 g2 <;>
    simp [← g1, ← g2]
  · intro rt svc email password e0 e1 hget hhash
    rw [signUp_of_hash_error rt svc email password e0 e1 hget hhash]
  · intro rt svc email password e0 e3 hashed hget hhash hmail hcreate
    rw [signUp_of_create_error rt svc email password e0 e3 hashed hget hhash hmail hcreate]

theorem errors_are_constants_witness :
    (freshService.SignUp sampleRuntime "a@example.com" longPassword).1 =
      some (errors.New "error while registering user") ∧
    (failingService.SignUp sampleRuntime "a@example.com" "pw123").1 =
      some (errors.New "error while registering user") :=
  ⟨errors_are_constants.2.2.2.2.2.2.1 sampleRuntime freshService "a@example.com" longPassword
      ⟨"sql: no rows in result set"⟩ ⟨"bcrypt: password length exceeds 72 bytes"⟩
      (by decide) (by decide),
    errors_are_constants.2.2.2.2.2.2.2 sampleRuntime failingService "a@example.com" "pw123"
      ⟨"sql: no rows in result set"⟩ ⟨"failed to create user: pq: connection refused"⟩
      "$2a$10$pw123" (by decide) (by decide) (by decide) (by decide)⟩

end AuthService
